import Mathlib

/-!
Verification of the scene-selection and acquisition pipeline of the
Algal-Bloom-Detection repository (notebook downloading satellite imagery
from the Planetary Computer catalog).

The Python source is shallowly embedded:
* calendar dates are day numbers (`Int`);
* latitude/longitude/bounding-box coordinates are rationals (`ℚ`);
* a STAC item is a record of the fields the code reads
  (`platform`, `datetime`, the four bbox coordinates);
* pandas raising (e.g. the `AttributeError` on an empty frame) and the
  notebook's `raise` statements become `Except` / an explicit raised flag;
* the catalog search and the raster fetches are oracles passed in as
  functions, since they are network calls outside the repository.
-/

namespace Algal

/-- Substring test on character lists: `hasSeq pat l` is true iff `pat`
occurs contiguously in `l`.  Used to embed Python's `"sentinel" in s`. -/
def startsSeq : List Char → List Char → Bool
  | [], _ => true
  | _ :: _, [] => false
  | a :: as, b :: bs => a == b && startsSeq as bs

def hasSeq (pat : List Char) : List Char → Bool
  | [] => startsSeq pat []
  | b :: bs => startsSeq pat (b :: bs) || hasSeq pat bs

/-- Embeds `item.properties["platform"].lower().str.contains("sentinel")` /
`'sentinel' in item_platform.lower()`. -/
def isSentinelPlatform (p : String) : Bool :=
  hasSeq "sentinel".toList (p.toList.map Char.toLower)

/-- A STAC item, restricted to the fields `select_best_image` and the
acquisition loop read: platform name, capture date (`item.datetime`,
as a day number), and the item's own bounding box
(`item.bbox = [min_long, min_lat, max_long, max_lat]`). -/
structure Item where
  platform : String
  datetime : Int
  minLong : ℚ
  minLat : ℚ
  maxLong : ℚ
  maxLat : ℚ
  deriving DecidableEq, Repr

/-- The containment predicate of `select_best_image`:
`(min_lat < latitude) & (max_lat > latitude) & (min_long < longitude)
 & (max_long > longitude)` (strict on all four sides). -/
def containsPoint (it : Item) (latitude longitude : ℚ) : Bool :=
  decide (it.minLat < latitude) && decide (it.maxLat > latitude) &&
  decide (it.minLong < longitude) && decide (it.maxLong > longitude)

/-- Result of `select_best_image`: either the `(np.nan, np.nan, np.nan)`
triple or a `(STAC item, platform, capture date)` triple. -/
inductive SelResult where
  | nanTriple : SelResult
  | found (item : Item) (platform : String) (datetime : Int) : SelResult
  deriving DecidableEq, Repr

/-- Containment filter of `select_best_image`:
`item_details[item_details["contains_sample_point"] == True]`. -/
def containedItems (items : List Item) (latitude longitude : ℚ) : List Item :=
  items.filter (fun it => containsPoint it latitude longitude)

/-- Provider-preference filter of `select_best_image`: if any row has
platform containing "sentinel", keep only those rows. -/
def preferredItems (l : List Item) : List Item :=
  if l.any (fun it => isSentinelPlatform it.platform) then
    l.filter (fun it => isSentinelPlatform it.platform)
  else l

/-- One comparison step of the sort: keep whichever of the two rows has
the strictly smaller `time_diff = date - item.datetime`. -/
def pickF (date : Int) (b it : Item) : Item :=
  if date - it.datetime < date - b.datetime then it else b

/-- `item_details.sort_values(by="time_diff", ascending=True).iloc[0]`:
the row minimising `time_diff = date - item.datetime` (first minimiser
kept, a deterministic rendering of the unspecified tie order). -/
def pickBest (date : Int) : List Item → Option Item
  | [] => none
  | x :: xs => some (xs.foldl (pickF date) x)

/-- The candidate rows still alive after both filters of
`select_best_image`: containment first, then sentinel preference. -/
def survivors (items : List Item) (latitude longitude : ℚ) : List Item :=
  preferredItems (containedItems items latitude longitude)

/-- `select_best_image(items, date, latitude, longitude)`.

On an empty `items` list, `pd.DataFrame([])` has no columns, so the
attribute access `item_details.min_lat` raises `AttributeError`; this is
the `.error` branch.  Otherwise: containment filter; if nothing remains,
return the nan triple; else apply the sentinel preference and return the
row with the smallest `time_diff = date - capture date`. -/
def select_best_image (items : List Item) (date : Int)
    (latitude longitude : ℚ) : Except String SelResult :=
  if items.isEmpty then
    Except.error "AttributeError: DataFrame object has no attribute min_lat"
  else
    match pickBest date (survivors items latitude longitude) with
    | none => Except.ok SelResult.nanTriple
    | some b => Except.ok (SelResult.found b b.platform b.datetime)

/-! ## GeoWindow: `get_bounding_box`

The geodesic destination computation lives in the external `geopy`
library; it is passed in as the oracle `dest meters lat lon bearing`,
returning the destination point `(latitude, longitude)` or an error
raised inside the library (`geopy` validates latitudes itself).  The
repository's `get_bounding_box` adds nothing around the four calls: no
coordinate or radius validation of its own. -/

/-- An error raised inside the external geodesic library. -/
inductive GeoErr where
  | valueError : GeoErr
  deriving DecidableEq, Repr

/-- `get_bounding_box(latitute, longitude, meter_buffer)`: four geodesic
destination points at bearings 180, 270, 0, 90; returns
`[min_long, min_lat, max_long, max_lat]`. -/
def get_bounding_box (dest : ℚ → ℚ → ℚ → ℚ → Except GeoErr (ℚ × ℚ))
    (latitute longitude meter_buffer : ℚ) : Except GeoErr (List ℚ) := do
  let pS ← dest meter_buffer latitute longitude 180
  let pW ← dest meter_buffer latitute longitude 270
  let pN ← dest meter_buffer latitute longitude 0
  let pE ← dest meter_buffer latitute longitude 90
  return [pW.2, pS.1, pE.2, pN.1]

/-! ## The acquisition loop (the "Get Data" cell)

Samples are metadata rows; the catalog search and the raster fetch of
`crop_sentinel_image` / `crop_landsat_image` are network oracles.  The
loop's mutable state is embedded explicitly, including the variables
`best_item`, `item_platform`, `item_date` that Python leaves in scope
across iterations: when `len(items) == 0` the code does `pass` and falls
through to the crop-and-save section with whatever those variables held
from an earlier iteration (or a `NameError` if never assigned). -/

/-- A metadata row: `(uid, latitude, longitude, date)`. -/
structure Sample where
  uid : String
  latitude : ℚ
  longitude : ℚ
  date : Int
  deriving DecidableEq, Repr

/-- The loop variables `best_item, item_platform, item_date` as carried
across iterations: never assigned yet (`undef`, using them raises
`NameError`), the `(np.nan, np.nan, np.nan)` triple (calling
`item_platform.lower()` raises `AttributeError`), or a real selection. -/
inductive Stale where
  | undef : Stale
  | nanTriple : Stale
  | sel (item : Item) (platform : String) (datetime : Int) : Stale
  deriving DecidableEq, Repr

/-- Mutable state of the acquisition loop:
`store` = uids with a file in `IMAGE_DIR` (the backing store),
`paths` = keys of `paths_dict` (dict keys, insertion order),
`errored` = `errored_ids`,
`stale` = the cross-iteration selection variables,
`calls` = number of network calls made (catalog searches + raster fetches). -/
structure LoopState where
  store : List String
  paths : List String
  errored : List String
  stale : Stale
  calls : ℕ
  deriving DecidableEq, Repr

/-- `paths_dict[uid] = image_pth`: dict keys are a set, re-assigning an
existing key with the same path leaves the dict unchanged. -/
def insertPath (uid : String) (paths : List String) : List String :=
  if uid ∈ paths then paths else paths ++ [uid]

/-- The catalog search oracle: `.error` is a network/auth failure raised
by `catalog.search(...)`/`get_items`, `.ok` the retrieved item list. -/
def Catalog : Type := Sample → Except Unit (List Item)

/-- The raster fetch oracle, standing for `crop_sentinel_image` (when the
Bool is true) or `crop_landsat_image` (when false) at the sample's save
bounding box: `.error` is a fetch/clip failure, `.ok` the flattened
pixel array (uint8 values, hence `ℕ`). -/
def Extractor : Type := Item → Bool → Sample → Except Unit (List ℕ)

/-- The `# SAVE IMAGE DATA` section of the try block: read the (possibly
stale) selection variables, branch on `'sentinel' in item_platform.lower()`,
crop, run the all-black check `sum(image_array.flatten()) == 0`, and on
success save the file and record the path.  Returns the updated state and
whether an exception was raised. -/
def extractAndSave (ext : Extractor) (s : Sample) (st : LoopState) :
    LoopState × Bool :=
  match st.stale with
  | Stale.undef => (st, true)
  | Stale.nanTriple => (st, true)
  | Stale.sel it pl _dt =>
    match ext it (isSentinelPlatform pl) s with
    | Except.error _ => ({ st with calls := st.calls + 1 }, true)
    | Except.ok raster =>
      if raster.sum == 0 then ({ st with calls := st.calls + 1 }, true)
      else
        ({ st with calls := st.calls + 1,
                   store := st.store ++ [s.uid],
                   paths := insertPath s.uid st.paths }, false)

/-- The whole `try:` block for one sample (reached only when
`image_pth.exists()` is false).  Returns the state as mutated up to the
point of return or raise, and whether an exception was raised. -/
def tryBody (cat : Catalog) (ext : Extractor) (s : Sample)
    (st : LoopState) : LoopState × Bool :=
  match cat s with
  | Except.error _ => ({ st with calls := st.calls + 1 }, true)
  | Except.ok items =>
    if items.isEmpty then
      -- `if len(items) == 0: pass` — falls through with stale variables
      extractAndSave ext s { st with calls := st.calls + 1 }
    else
      match select_best_image items s.date s.latitude s.longitude with
      | Except.error _ => ({ st with calls := st.calls + 1 }, true)
      | Except.ok SelResult.nanTriple =>
        -- the tuple assignment stores the nan triple, then
        -- `raise Exception('No image found')`
        ({ st with calls := st.calls + 1, stale := Stale.nanTriple }, true)
      | Except.ok (SelResult.found it pl dt) =>
        extractAndSave ext s
          { st with calls := st.calls + 1, stale := Stale.sel it pl dt }

/-- One iteration of the loop: cache check (`image_pth.exists()`), else
the try block with the bare `except:` appending `row.uid` to
`errored_ids`. -/
def step (cat : Catalog) (ext : Extractor) (s : Sample)
    (st : LoopState) : LoopState :=
  if s.uid ∈ st.store then
    { st with paths := insertPath s.uid st.paths }
  else
    match tryBody cat ext s st with
    | (st', false) => st'
    | (st', true) => { st' with errored := st'.errored ++ [s.uid] }

/-- The full loop `for row in locations_to_get.itertuples(): ...`. -/
def runLoop (cat : Catalog) (ext : Extractor) (samples : List Sample)
    (st : LoopState) : LoopState :=
  samples.foldl (fun st s => step cat ext s st) st

/-- The initial state: empty dicts and lists, loop variables unassigned,
with `store0` the files already in `IMAGE_DIR`. -/
def initState (store0 : List String) : LoopState :=
  { store := store0, paths := [], errored := [], stale := Stale.undef,
    calls := 0 }

/-! ## The black-image scrub (the "Remove all black image files" cells)

The persisted store is a list of `(filename, pixel array)` pairs.  The
scan builds `black_pngs` (files whose flattened pixel sum is 0), then
`os.remove` deletes each listed file; `scrub` returns the remaining
store and the number of files removed. -/

/-- The scan cell: the filenames whose flattened pixel sum is 0. -/
def black_pngs (store : List (String × List ℕ)) : List String :=
  (store.filter (fun f => f.2.sum == 0)).map Prod.fst

/-- The removal cell: delete every file listed by the scan; the second
component is the number of files removed. -/
def scrub (store : List (String × List ℕ)) : List (String × List ℕ) × ℕ :=
  (store.filter (fun f => !(decide (f.1 ∈ black_pngs store))),
   (black_pngs store).length)

/-! ## Concrete instances used to exercise the definitions -/

/-- A Sentinel-2 item captured on day 30 whose bbox contains the origin. -/
def itemSentPrior : Item :=
  { platform := "Sentinel-2A", datetime := 30,
    minLong := -1, minLat := -1, maxLong := 1, maxLat := 1 }

/-- A Landsat item captured on day 32 whose bbox contains the origin. -/
def itemLandPost : Item :=
  { platform := "landsat-8", datetime := 32,
    minLong := -1, minLat := -1, maxLong := 1, maxLat := 1 }

/-- A Landsat item captured on day 30 whose bbox contains the origin. -/
def itemLandPrior : Item :=
  { platform := "landsat-9", datetime := 30,
    minLong := -1, minLat := -1, maxLong := 1, maxLat := 1 }

/-- A Landsat item captured on day 28 whose bbox contains the origin. -/
def itemLandEarly : Item :=
  { platform := "landsat-8", datetime := 28,
    minLong := -1, minLat := -1, maxLong := 1, maxLat := 1 }

/-- A Sentinel item whose bbox does not contain the origin. -/
def itemFarAway : Item :=
  { platform := "Sentinel-2B", datetime := 10,
    minLong := 50, minLat := 50, maxLong := 60, maxLat := 60 }

/-- Sample rows at the origin. -/
def sampleA : Sample := { uid := "aaaa", latitude := 0, longitude := 0, date := 31 }

def sampleB : Sample := { uid := "bbbb", latitude := 0, longitude := 0, date := 31 }

def sampleC : Sample := { uid := "cccc", latitude := 0, longitude := 0, date := 31 }

/-- A catalog returning one usable item for `sampleA` and zero scenes for
every other sample. -/
def catAB : Catalog :=
  fun s => if s.uid == "aaaa" then Except.ok [itemSentPrior] else Except.ok []

/-- A catalog whose search always fails (network down). -/
def catFail : Catalog := fun _ => Except.error ()

/-- An extractor whose fetch always yields the one-pixel raster `[7]`. -/
def extOk7 : Extractor := fun _ _ _ => Except.ok [7]

/-- An extractor whose fetch always yields an all-zero raster. -/
def extZero : Extractor := fun _ _ _ => Except.ok [0, 0, 0]

/-- A geodesic oracle that always succeeds (returns the input point). -/
def destOkId : ℚ → ℚ → ℚ → ℚ → Except GeoErr (ℚ × ℚ) :=
  fun _ la lo _ => Except.ok (la, lo)

/-- A two-file store with one black image. -/
def storeBW : List (String × List ℕ) := [("p", [0, 0]), ("q", [1])]

end Algal

namespace Algal

/-! ## Lemmas about the selector -/

theorem foldl_pickF_mem (date : Int) (xs : List Item) (b : Item) :
    xs.foldl (pickF date) b = b ∨ xs.foldl (pickF date) b ∈ xs := by
  induction xs generalizing b with
  | nil => exact Or.inl rfl
  | cons x xs ih =>
    simp only [List.foldl_cons]
    rcases ih (pickF date b x) with h | h
    · rw [h]; unfold pickF; split
      · exact Or.inr (List.mem_cons_self _ _)
      · exact Or.inl rfl
    · exact Or.inr (List.mem_cons_of_mem _ h)

theorem foldl_pickF_min (date : Int) (xs : List Item) (b : Item) :
    date - (xs.foldl (pickF date) b).datetime ≤ date - b.datetime ∧
    ∀ it ∈ xs, date - (xs.foldl (pickF date) b).datetime ≤ date - it.datetime := by
  induction xs generalizing b with
  | nil => exact ⟨le_refl _, by simp⟩
  | cons x xs ih =>
    simp only [List.foldl_cons]
    obtain ⟨h1, h2⟩ := ih (pickF date b x)
    have hb : date - (pickF date b x).datetime ≤ date - b.datetime := by
      unfold pickF; split
      · omega
      · exact le_refl _
    have hx : date - (pickF date b x).datetime ≤ date - x.datetime := by
      unfold pickF; split
      · exact le_refl _
      · omega
    refine ⟨le_trans h1 hb, ?_⟩
    intro it hit
    rcases List.mem_cons.mp hit with rfl | hmem
    · exact le_trans h1 hx
    · exact h2 it hmem

theorem pickBest_spec (date : Int) (l : List Item) (b : Item)
    (h : pickBest date l = some b) :
    b ∈ l ∧ ∀ it ∈ l, date - b.datetime ≤ date - it.datetime := by
  match l with
  | [] => simp [pickBest] at h
  | x :: xs =>
    simp only [pickBest, Option.some.injEq] at h
    subst h
    refine ⟨?_, ?_⟩
    · rcases foldl_pickF_mem date xs x with h | h
      · rw [h]; exact List.mem_cons_self _ _
      · exact List.mem_cons_of_mem _ h
    · intro it hit
      obtain ⟨h1, h2⟩ := foldl_pickF_min date xs x
      rcases List.mem_cons.mp hit with rfl | hmem
      · exact h1
      · exact h2 it hmem

theorem pickBest_isSome (date : Int) (l : List Item) (h : l ≠ []) :
    ∃ b, pickBest date l = some b := by
  match l with
  | [] => exact absurd rfl h
  | x :: xs => exact ⟨_, rfl⟩

theorem mem_of_mem_preferred (l : List Item) (it : Item)
    (h : it ∈ preferredItems l) : it ∈ l := by
  unfold preferredItems at h
  split at h
  · exact (List.mem_filter.mp h).1
  · exact h

theorem preferred_all_sentinel (l : List Item)
    (h : l.any (fun it => isSentinelPlatform it.platform) = true) :
    ∀ it ∈ preferredItems l, isSentinelPlatform it.platform = true := by
  unfold preferredItems
  rw [if_pos h]
  intro it hit
  exact (List.mem_filter.mp hit).2

theorem preferred_ne_nil (l : List Item) (h : l ≠ []) :
    preferredItems l ≠ [] := by
  unfold preferredItems
  split
  · next hany =>
      obtain ⟨x, hx, hsent⟩ := List.any_eq_true.mp hany
      intro hnil
      have hxm : x ∈ l.filter (fun it => isSentinelPlatform it.platform) :=
        List.mem_filter.mpr ⟨hx, hsent⟩
      rw [hnil] at hxm
      exact absurd hxm (List.not_mem_nil x)
  · exact h

theorem preferred_eq_self (l : List Item) (c : Bool)
    (h : ∀ it ∈ l, isSentinelPlatform it.platform = c) :
    preferredItems l = l := by
  unfold preferredItems
  split
  · next hany =>
      obtain ⟨x, hx, hsent⟩ := List.any_eq_true.mp hany
      have hc : c = true := by rw [← h x hx]; exact hsent
      apply List.filter_eq_self.mpr
      intro a ha
      rw [h a ha, hc]
  · rfl

theorem mem_contained (items : List Item) (la lo : ℚ) (it : Item) :
    it ∈ containedItems items la lo ↔
      it ∈ items ∧ containsPoint it la lo = true := List.mem_filter

theorem contained_eq_self (items : List Item) (la lo : ℚ)
    (h : ∀ it ∈ items, containsPoint it la lo = true) :
    containedItems items la lo = items := List.filter_eq_self.mpr h

theorem select_of_ne_nil (items : List Item) (date : Int) (la lo : ℚ)
    (h : items ≠ []) :
    select_best_image items date la lo =
      match pickBest date (survivors items la lo) with
      | none => Except.ok SelResult.nanTriple
      | some b => Except.ok (SelResult.found b b.platform b.datetime) := by
  unfold select_best_image
  rw [if_neg]
  simp [List.isEmpty_iff, h]

end Algal

namespace Algal

/-! ## Claim theorems about the selector -/

/-- Claim C2: whenever some candidate both spatially contains the target
point and is of the Sentinel family, `select_best_image` returns a
selection, and any selection it returns is of the Sentinel family (never
a Landsat one), regardless of capture dates. -/
theorem claim_C2_sentinel_family_preferred (items : List Item) (date : Int)
    (la lo : ℚ)
    (h : ∃ s ∈ items, containsPoint s la lo = true ∧
      isSentinelPlatform s.platform = true) :
    (∃ b, select_best_image items date la lo
        = Except.ok (SelResult.found b b.platform b.datetime)) ∧
    ∀ b pl dt,
      select_best_image items date la lo = Except.ok (SelResult.found b pl dt) →
      isSentinelPlatform pl = true := by
  obtain ⟨s, hs, hc, hsent⟩ := h
  have hne : items ≠ [] := List.ne_nil_of_mem hs
  have hsC : s ∈ containedItems items la lo := List.mem_filter.mpr ⟨hs, hc⟩
  have hany :
      (containedItems items la lo).any
        (fun it => isSentinelPlatform it.platform) = true :=
    List.any_eq_true.mpr ⟨s, hsC, hsent⟩
  have hPne : survivors items la lo ≠ [] :=
    preferred_ne_nil _ (List.ne_nil_of_mem hsC)
  obtain ⟨b, hb⟩ := pickBest_isSome date _ hPne
  have hsel : select_best_image items date la lo
      = Except.ok (SelResult.found b b.platform b.datetime) := by
    rw [select_of_ne_nil items date la lo hne, hb]
  refine ⟨⟨b, hsel⟩, ?_⟩
  intro b' pl dt h'
  rw [hsel] at h'
  simp only [Except.ok.injEq, SelResult.found.injEq] at h'
  obtain ⟨hbb, hpl, -⟩ := h'
  have hbmem : b ∈ survivors items la lo := (pickBest_spec date _ b hb).1
  have := preferred_all_sentinel _ hany b hbmem
  rw [← hpl]
  exact this

/-- Claim C2 witness: the selector picks a Sentinel item on the concrete
pair of a prior Sentinel capture and a more recent Landsat capture. -/
theorem claim_C2_witness :
    (select_best_image [itemSentPrior, itemLandPost] 31 0 0).isOk = true := by
  obtain ⟨b, hb⟩ :=
    (claim_C2_sentinel_family_preferred [itemSentPrior, itemLandPost] 31 0 0
      ⟨itemSentPrior, by decide, by decide, by decide⟩).1
  rw [hb]
  rfl

/-- Claim C3: for a non-empty candidate list whose members all contain
the target point, all belong to one family, and all have capture date at
most the target date, the selection is a member whose capture date is
the maximum capture date (the closest-prior capture). -/
theorem claim_C3_closest_prior (items : List Item) (date : Int) (la lo : ℚ)
    (c : Bool) (hne : items ≠ [])
    (hcont : ∀ it ∈ items, containsPoint it la lo = true)
    (hfam : ∀ it ∈ items, isSentinelPlatform it.platform = c)
    (hdates : ∀ it ∈ items, it.datetime ≤ date) :
    ∃ b, select_best_image items date la lo
        = Except.ok (SelResult.found b b.platform b.datetime) ∧
      b ∈ items ∧ b.datetime ≤ date ∧
      ∀ it ∈ items, it.datetime ≤ b.datetime := by
  have hsurv : survivors items la lo = items := by
    unfold survivors
    rw [contained_eq_self items la lo hcont]
    exact preferred_eq_self items c hfam
  obtain ⟨b, hb⟩ := pickBest_isSome date (survivors items la lo)
    (by rw [hsurv]; exact hne)
  obtain ⟨hmem, hmin⟩ := pickBest_spec date _ b hb
  rw [hsurv] at hmem hmin
  refine ⟨b, ?_, hmem, hdates b hmem, ?_⟩
  · rw [select_of_ne_nil items date la lo hne, hb]
  · intro it hit
    have := hmin it hit
    omega

/-- Claim C3 witness: among two prior Landsat captures the later one (day
30) is selected over the earlier one (day 28). -/
theorem claim_C3_witness :
    (select_best_image [itemLandEarly, itemLandPrior] 31 0 0).isOk = true := by
  obtain ⟨b, hb, -⟩ :=
    claim_C3_closest_prior [itemLandEarly, itemLandPrior] 31 0 0 false
      (by decide) (by decide) (by decide) (by decide)
  rw [hb]
  rfl

/-- Claim C4 counterexample: on an empty candidate list
`select_best_image` raises (the empty DataFrame has no bbox columns)
instead of returning the explicit empty result. -/
theorem claim_C4_cex : (select_best_image [] 0 0 0).isOk = false := by decide

/-- Claim C4 as amended: on a NON-empty candidate list
`select_best_image` never raises, and when no candidate contains the
target point it returns the explicit empty result (the nan triple). -/
theorem claim_C4_total_on_ne_nil (items : List Item) (date : Int) (la lo : ℚ)
    (hne : items ≠ []) :
    (select_best_image items date la lo).isOk = true ∧
    ((∀ it ∈ items, containsPoint it la lo = false) →
      select_best_image items date la lo = Except.ok SelResult.nanTriple) := by
  constructor
  · rw [select_of_ne_nil items date la lo hne]
    rcases hb : pickBest date (survivors items la lo) with - | b <;> rfl
  · intro hnone
    have hC : containedItems items la lo = [] := by
      unfold containedItems
      rw [List.filter_eq_nil_iff]
      intro a ha
      rw [hnone a ha]
      exact Bool.false_ne_true
    have hS : survivors items la lo = [] := by
      unfold survivors
      rw [hC]
      rfl
    rw [select_of_ne_nil items date la lo hne, hS]
    rfl

/-- Claim C4 witness: one non-containing candidate yields the nan
triple. -/
theorem claim_C4_witness :
    select_best_image [itemFarAway] 0 0 0 = Except.ok SelResult.nanTriple :=
  (claim_C4_total_on_ne_nil [itemFarAway] 0 0 0 (by decide)).2 (by decide)

/-- Claim C10 counterexample: the candidate set holds a containing
Landsat capture dated after the target (day 32 > 31), yet the selection
is the prior Sentinel capture, because the family-preference filter runs
before the time comparison. -/
theorem claim_C10_cex :
    containsPoint itemLandPost 0 0 = true ∧
    (31 : Int) < itemLandPost.datetime ∧
    select_best_image [itemSentPrior, itemLandPost] 31 0 0
      = Except.ok (SelResult.found itemSentPrior "Sentinel-2A" 30) ∧
    itemSentPrior.datetime < 31 :=
  ⟨by decide, by decide, rfl, by decide⟩

/-- Claim C10 as amended: the selection minimises the signed difference
`target_date - capture_date` over the candidates surviving containment
and family preference; hence if any SURVIVING candidate is dated after
the target date the selection is dated after the target date, and
closest-prior behaviour holds only when all surviving capture dates are
at most the target date. -/
theorem claim_C10_signed_minimum (items : List Item) (date : Int)
    (la lo : ℚ) (b : Item) (pl : String) (dt : Int)
    (hsel : select_best_image items date la lo
      = Except.ok (SelResult.found b pl dt)) :
    b ∈ survivors items la lo ∧
    (∀ it ∈ survivors items la lo,
      date - b.datetime ≤ date - it.datetime) ∧
    ((∃ it ∈ survivors items la lo, date < it.datetime) →
      date < b.datetime) := by
  have hne : items ≠ [] := by
    intro hn
    subst hn
    exact absurd hsel (by simp [select_best_image])
  rw [select_of_ne_nil items date la lo hne] at hsel
  rcases hb : pickBest date (survivors items la lo) with - | b'
  · rw [hb] at hsel
    exact absurd hsel (by simp)
  · rw [hb] at hsel
    simp only [Except.ok.injEq, SelResult.found.injEq] at hsel
    obtain ⟨hbb, -, -⟩ := hsel
    subst hbb
    obtain ⟨hmem, hmin⟩ := pickBest_spec date _ b' hb
    refine ⟨hmem, hmin, ?_⟩
    rintro ⟨it, hit, hlt⟩
    have := hmin it hit
    omega

/-- Claim C10 witness: in an all-Landsat candidate set the post-target
capture (day 32) wins over the prior capture (day 30). -/
theorem claim_C10_witness : (31 : Int) < itemLandPost.datetime :=
  (claim_C10_signed_minimum [itemLandPrior, itemLandPost] 31 0 0
      itemLandPost itemLandPost.platform itemLandPost.datetime rfl).2.2
    ⟨itemLandPost, by decide, by decide⟩

end Algal

namespace Algal

/-! ## Lemmas about the acquisition loop -/

theorem runLoop_nil (cat : Catalog) (ext : Extractor) (st : LoopState) :
    runLoop cat ext [] st = st := rfl

theorem runLoop_cons (cat : Catalog) (ext : Extractor) (s : Sample)
    (l : List Sample) (st : LoopState) :
    runLoop cat ext (s :: l) st = runLoop cat ext l (step cat ext s st) := rfl

theorem runLoop_append (cat : Catalog) (ext : Extractor)
    (l₁ l₂ : List Sample) (st : LoopState) :
    runLoop cat ext (l₁ ++ l₂) st = runLoop cat ext l₂ (runLoop cat ext l₁ st) :=
  List.foldl_append _ _ _ _

theorem extractAndSave_errored (ext : Extractor) (s : Sample) (st : LoopState) :
    (extractAndSave ext s st).1.errored = st.errored := by
  unfold extractAndSave
  split
  · rfl
  · rfl
  · split
    · rfl
    · split
      · rfl
      · rfl

theorem tryBody_errored (cat : Catalog) (ext : Extractor) (s : Sample)
    (st : LoopState) :
    (tryBody cat ext s st).1.errored = st.errored := by
  unfold tryBody
  split
  · rfl
  · split
    · rw [extractAndSave_errored]
    · split
      · rfl
      · rfl
      · rw [extractAndSave_errored]

theorem step_cached (cat : Catalog) (ext : Extractor) (s : Sample)
    (st : LoopState) (h : s.uid ∈ st.store) :
    step cat ext s st = { st with paths := insertPath s.uid st.paths } := by
  unfold step
  rw [if_pos h]

theorem step_not_cached_fail (cat : Catalog) (ext : Extractor) (s : Sample)
    (st : LoopState) (hmiss : s.uid ∉ st.store)
    (hfail : (tryBody cat ext s st).2 = true) :
    step cat ext s st =
      { (tryBody cat ext s st).1 with
        errored := (tryBody cat ext s st).1.errored ++ [s.uid] } := by
  unfold step
  rw [if_neg hmiss]
  rcases htb : tryBody cat ext s st with ⟨st', b⟩
  rw [htb] at hfail
  simp only at hfail
  subst hfail
  rfl

theorem step_errored_mono (cat : Catalog) (ext : Extractor) (s : Sample)
    (st : LoopState) (u : String) (h : u ∈ st.errored) :
    u ∈ (step cat ext s st).errored := by
  unfold step
  split
  · exact h
  · rcases htb : tryBody cat ext s st with ⟨st', b⟩
    have he : st'.errored = st.errored := by
      have := tryBody_errored cat ext s st
      rw [htb] at this
      exact this
    cases b
    · simpa [he] using h
    · simp only [List.mem_append]
      exact Or.inl (by rw [he]; exact h)

theorem step_errored_sub (cat : Catalog) (ext : Extractor) (s : Sample)
    (st : LoopState) (u : String) (h : u ∈ (step cat ext s st).errored) :
    u ∈ st.errored ∨ u = s.uid := by
  unfold step at h
  split at h
  · exact Or.inl h
  · rcases htb : tryBody cat ext s st with ⟨st', b⟩
    rw [htb] at h
    have he : st'.errored = st.errored := by
      have := tryBody_errored cat ext s st
      rw [htb] at this
      exact this
    cases b
    · simp only at h
      exact Or.inl (by rw [← he]; exact h)
    · simp only [List.mem_append, List.mem_singleton] at h
      rcases h with h | h
      · exact Or.inl (by rw [← he]; exact h)
      · exact Or.inr h

theorem runLoop_errored_mono (cat : Catalog) (ext : Extractor)
    (samples : List Sample) (st : LoopState) (u : String)
    (h : u ∈ st.errored) :
    u ∈ (runLoop cat ext samples st).errored := by
  induction samples generalizing st with
  | nil => exact h
  | cons s l ih =>
    rw [runLoop_cons]
    exact ih _ (step_errored_mono cat ext s st u h)

theorem runLoop_errored_sub (cat : Catalog) (ext : Extractor)
    (samples : List Sample) (st : LoopState) (u : String)
    (h : u ∈ (runLoop cat ext samples st).errored) :
    u ∈ st.errored ∨ u ∈ samples.map Sample.uid := by
  induction samples generalizing st with
  | nil => exact Or.inl h
  | cons s l ih =>
    rw [runLoop_cons] at h
    rcases ih _ h with h' | h'
    · rcases step_errored_sub cat ext s st u h' with h'' | h''
      · exact Or.inl h''
      · exact Or.inr (by simp [h''])
    · exact Or.inr (by rw [List.map_cons]; exact List.mem_cons_of_mem _ h')

theorem runLoop_all_cached (cat : Catalog) (ext : Extractor)
    (samples : List Sample) (st : LoopState)
    (h : ∀ s ∈ samples, s.uid ∈ st.store) :
    (runLoop cat ext samples st).store = st.store ∧
    (runLoop cat ext samples st).calls = st.calls ∧
    (runLoop cat ext samples st).errored = st.errored := by
  induction samples generalizing st with
  | nil => exact ⟨rfl, rfl, rfl⟩
  | cons s l ih =>
    rw [runLoop_cons, step_cached cat ext s st (h s (List.mem_cons_self s l))]
    exact ih _ (fun s' hs' => h s' (List.mem_cons_of_mem s hs'))

end Algal

namespace Algal

/-! ## Claim theorems about the acquisition loop -/

/-- Claim C1 evaluated at its failing input: `sampleB` gets zero
candidate scenes from the catalog, yet after the run its uid is in the
output store (a file was extracted and saved for it, using the stale
selection left over from `sampleA`) and it is NOT in the failure list —
the `pass` on `len(items) == 0` falls through to the crop-and-save
section instead of failing the sample. -/
theorem claim_C1_stale_fallthrough :
    catAB sampleB = Except.ok [] ∧
    "bbbb" ∈ (runLoop catAB extOk7 [sampleA, sampleB] (initState [])).store ∧
    "bbbb" ∉ (runLoop catAB extOk7 [sampleA, sampleB] (initState [])).errored :=
  ⟨rfl, by decide, by decide⟩

/-- Claim C5: when the sample is not cached, a scene is selected, and
the fetched raster sums to zero, the iteration leaves the output store
and the path dict unchanged and appends the uid to the failure list
(the all-black check raises before `image.save`). -/
theorem claim_C5_zero_raster_not_persisted (cat : Catalog) (ext : Extractor)
    (s : Sample) (st : LoopState) (h0 : s.uid ∉ st.store)
    (items : List Item) (hcat : cat s = Except.ok items)
    (it : Item) (pl : String) (dt : Int)
    (hsel : select_best_image items s.date s.latitude s.longitude
      = Except.ok (SelResult.found it pl dt))
    (r : List ℕ) (hext : ext it (isSentinelPlatform pl) s = Except.ok r)
    (hzero : r.sum = 0) :
    (step cat ext s st).store = st.store ∧
    (step cat ext s st).paths = st.paths ∧
    (step cat ext s st).errored = st.errored ++ [s.uid] := by
  have hne : items ≠ [] := by
    intro hn
    subst hn
    exact absurd hsel (by simp [select_best_image])
  have hie : items.isEmpty = false := by simpa using hne
  have hsum : (r.sum == 0) = true := by simpa using hzero
  have htb : tryBody cat ext s st =
      ({ st with calls := st.calls + 1 + 1, stale := Stale.sel it pl dt },
        true) := by
    unfold tryBody
    rw [hcat]
    simp only [hie, Bool.false_eq_true, if_false, hsel]
    unfold extractAndSave
    simp only [hext, hsum, if_true]
  have hstep : step cat ext s st =
      { st with calls := st.calls + 1 + 1, stale := Stale.sel it pl dt,
                errored := st.errored ++ [s.uid] } := by
    unfold step
    rw [if_neg h0, htb]
  rw [hstep]
  exact ⟨rfl, rfl, rfl⟩

/-- Claim C5 witness: a concrete sample whose extraction yields an
all-zero raster is recorded as errored and nothing is stored. -/
theorem claim_C5_witness :
    (step catAB extZero sampleA (initState [])).store = [] ∧
    (step catAB extZero sampleA (initState [])).paths = [] ∧
    (step catAB extZero sampleA (initState [])).errored = ["aaaa"] :=
  claim_C5_zero_raster_not_persisted catAB extZero sampleA (initState [])
    (by decide) [itemSentPrior] rfl itemSentPrior "Sentinel-2A" 30 rfl
    [0, 0, 0] rfl (by decide)

/-- Claim C6: a sample whose try block raises has exactly its own uid
appended to the failure list, the remaining samples are then processed
from that state (no abort), the raising sample ends up in the failure
list of the whole run, and every uid in the final failure list is the
uid of some processed sample (or was already present initially). -/
theorem claim_C6_error_containment (cat : Catalog) (ext : Extractor)
    (pre : List Sample) (s : Sample) (post : List Sample) (st0 : LoopState)
    (hmiss : s.uid ∉ (runLoop cat ext pre st0).store)
    (hfail : (tryBody cat ext s (runLoop cat ext pre st0)).2 = true) :
    (runLoop cat ext (pre ++ s :: post) st0 =
      runLoop cat ext post
        { (tryBody cat ext s (runLoop cat ext pre st0)).1 with
          errored := (tryBody cat ext s (runLoop cat ext pre st0)).1.errored
            ++ [s.uid] }) ∧
    s.uid ∈ (runLoop cat ext (pre ++ s :: post) st0).errored ∧
    ∀ u ∈ (runLoop cat ext (pre ++ s :: post) st0).errored,
      u ∈ st0.errored ∨ u ∈ (pre ++ s :: post).map Sample.uid := by
  have hrun : runLoop cat ext (pre ++ s :: post) st0 =
      runLoop cat ext post (step cat ext s (runLoop cat ext pre st0)) := by
    rw [runLoop_append, runLoop_cons]
  have hstep := step_not_cached_fail cat ext s _ hmiss hfail
  refine ⟨by rw [hrun, hstep], ?_, ?_⟩
  · rw [hrun, hstep]
    apply runLoop_errored_mono
    simp
  · intro u hu
    exact runLoop_errored_sub cat ext _ st0 u hu

/-- Claim C6 witness: with the catalog down, the one sample of the run
is recorded in the failure list and the run completes. -/
theorem claim_C6_witness :
    "aaaa" ∈ (runLoop catFail extOk7 [sampleA] (initState [])).errored :=
  (claim_C6_error_containment catFail extOk7 [] sampleA [] (initState [])
    (by decide) (by decide)).2.1

/-- Claim C7: a sample whose output file already exists causes no
catalog query and no fetch — the iteration only records the path — and
a second run over a sample set whose every uid is stored after the
first run adds zero network calls, leaves the store identical, and adds
no failures. -/
theorem claim_C7_cache_idempotence :
    (∀ (cat : Catalog) (ext : Extractor) (s : Sample) (st : LoopState),
      s.uid ∈ st.store →
      step cat ext s st = { st with paths := insertPath s.uid st.paths }) ∧
    (∀ (cat : Catalog) (ext : Extractor) (samples : List Sample)
        (st0 : LoopState),
      (∀ s ∈ samples, s.uid ∈ (runLoop cat ext samples st0).store) →
      (runLoop cat ext samples (runLoop cat ext samples st0)).store
          = (runLoop cat ext samples st0).store ∧
      (runLoop cat ext samples (runLoop cat ext samples st0)).calls
          = (runLoop cat ext samples st0).calls ∧
      (runLoop cat ext samples (runLoop cat ext samples st0)).errored
          = (runLoop cat ext samples st0).errored) :=
  ⟨step_cached,
   fun cat ext samples st0 h =>
     runLoop_all_cached cat ext samples (runLoop cat ext samples st0) h⟩

/-- Claim C7 witness: rerunning over a one-sample set whose file is
already stored adds no network calls. -/
theorem claim_C7_witness :
    (runLoop catFail extOk7 [sampleC]
        (runLoop catFail extOk7 [sampleC] (initState ["cccc"]))).calls
      = (runLoop catFail extOk7 [sampleC] (initState ["cccc"])).calls :=
  (claim_C7_cache_idempotence.2 catFail extOk7 [sampleC]
    (initState ["cccc"]) (by decide)).2.1

end Algal

namespace Algal

/-! ## Claim theorems about `get_bounding_box` and the scrub -/

/-- Claim C8 counterexample: with a non-positive radius (and in-range
coordinates) `get_bounding_box` returns a bounding box normally — the
function contains no InvalidGeometry validation at all. -/
theorem claim_C8_cex :
    ((-1 : ℚ) ≤ 0) ∧
    get_bounding_box destOkId 0 0 (-1) = Except.ok [0, 0, 0, 0] :=
  ⟨by norm_num, rfl⟩

/-- Claim C8 as amended: `get_bounding_box` performs no input validation
of its own: whenever the external geodesic library returns destination
points, it returns a bounding box, for every latitude, longitude and
radius — non-positive radii and out-of-range coordinates included; any
failure can only originate inside the library. -/
theorem claim_C8_no_validation
    (dest : ℚ → ℚ → ℚ → ℚ → Except GeoErr (ℚ × ℚ))
    (latitute longitude meter_buffer : ℚ)
    (h : ∀ m la lo br, (dest m la lo br).isOk = true) :
    (get_bounding_box dest latitute longitude meter_buffer).isOk = true := by
  have hex : ∀ (e : Except GeoErr (ℚ × ℚ)), e.isOk = true →
      ∃ v, e = Except.ok v := by
    intro e he
    cases e with
    | error a => exact Bool.noConfusion he
    | ok v => exact ⟨v, rfl⟩
  obtain ⟨p1, e1⟩ := hex _ (h meter_buffer latitute longitude 180)
  obtain ⟨p2, e2⟩ := hex _ (h meter_buffer latitute longitude 270)
  obtain ⟨p3, e3⟩ := hex _ (h meter_buffer latitute longitude 0)
  obtain ⟨p4, e4⟩ := hex _ (h meter_buffer latitute longitude 90)
  unfold get_bounding_box
  rw [e1, e2, e3, e4]
  rfl

/-- Claim C8 witness: a negative radius at an arbitrary point yields a
bounding box, not an error. -/
theorem claim_C8_witness :
    (get_bounding_box destOkId 5 6 (-3)).isOk = true :=
  claim_C8_no_validation destOkId 5 6 (-3) (fun _ _ _ _ => rfl)

theorem scrub_def (store : List (String × List ℕ)) :
    scrub store =
      (store.filter (fun f => !(decide (f.1 ∈ black_pngs store))),
       (black_pngs store).length) := rfl

/-- Every file surviving a scrub has nonzero pixel sum. -/
theorem mem_scrub_sum_ne_zero (store : List (String × List ℕ))
    (f : String × List ℕ) (h : f ∈ (scrub store).1) :
    (f.2.sum == 0) = false := by
  unfold scrub at h
  obtain ⟨hst, hnc⟩ := List.mem_filter.mp h
  cases hz : (f.2.sum == 0) with
  | false => rfl
  | true =>
    exfalso
    have hfB : f ∈ store.filter (fun g => g.2.sum == 0) :=
      List.mem_filter.mpr ⟨hst, hz⟩
    have hfn : f.1 ∈ black_pngs store := List.mem_map_of_mem Prod.fst hfB
    rw [decide_eq_true hfn] at hnc
    exact absurd hnc (by simp)

/-- Claim C9: when stored filenames are distinct, `scrub` removes
exactly the rasters whose pixel sum is 0 and counts them; and scrubbing
a second time removes 0 files and leaves the store unchanged. -/
theorem claim_C9_scrub_exact_and_idempotent
    (store : List (String × List ℕ)) :
    ((store.map Prod.fst).Nodup →
      (scrub store).1 = store.filter (fun f => !(f.2.sum == 0)) ∧
      (scrub store).2 = (store.filter (fun f => f.2.sum == 0)).length) ∧
    (scrub (scrub store).1).2 = 0 ∧
    (scrub (scrub store).1).1 = (scrub store).1 := by
  have hb2 : black_pngs (scrub store).1 = [] := by
    unfold black_pngs
    rw [List.filter_eq_nil_iff.mpr, List.map_nil]
    intro f hf
    rw [mem_scrub_sum_ne_zero store f hf]
    exact Bool.false_ne_true
  refine ⟨?_, ?_, ?_⟩
  · intro hnd
    constructor
    · unfold scrub
      apply List.filter_congr
      intro f hf
      congr 1
      cases hz : (f.2.sum == 0) with
      | true =>
        have hfB : f ∈ store.filter (fun g => g.2.sum == 0) :=
          List.mem_filter.mpr ⟨hf, hz⟩
        exact decide_eq_true (List.mem_map_of_mem Prod.fst hfB)
      | false =>
        apply decide_eq_false
        intro hmem
        obtain ⟨g, hgB, hg1⟩ := List.mem_map.mp hmem
        obtain ⟨hgst, hgz⟩ := List.mem_filter.mp hgB
        have hgf : g = f := List.inj_on_of_nodup_map hnd hgst hf hg1
        rw [hgf] at hgz
        rw [hgz] at hz
        exact Bool.noConfusion hz
    · unfold scrub black_pngs
      rw [List.length_map]
  · rw [scrub_def ((scrub store).1), hb2]
    rfl
  · rw [scrub_def ((scrub store).1), hb2]
    apply List.filter_eq_self.mpr
    intro f hf
    simp

/-- Claim C9 witness: on a two-file store with one black image, scrub
removes exactly that file and counts 1. -/
theorem claim_C9_witness :
    (scrub storeBW).1 = storeBW.filter (fun f => !(f.2.sum == 0)) ∧
    (scrub storeBW).2 = 1 :=
  (claim_C9_scrub_exact_and_idempotent storeBW).1 (by decide)

end Algal

namespace Algal

/-- The end-to-end example of the spec: a Sentinel-2 capture of day 20
beats a more recent Landsat capture of day 25 under target day 31,
both containing the point (dates as day-of-month within one month). -/
theorem spec_example_family_over_recency :
    select_best_image
      [{ platform := "Sentinel-2A", datetime := 20,
         minLong := -122, minLat := 35, maxLong := -120, maxLat := 37 },
       { platform := "landsat-8", datetime := 25,
         minLong := -122, minLat := 35, maxLong := -120, maxLat := 37 }]
      31 36 (-121)
    = Except.ok (SelResult.found
        { platform := "Sentinel-2A", datetime := 20,
          minLong := -122, minLat := 35, maxLong := -120, maxLat := 37 }
        "Sentinel-2A" 20) := by rfl

/-- The second end-to-end example of the spec: a containing Landsat
beats a non-containing Sentinel (containment runs before family
preference). -/
theorem spec_example_containment_before_family :
    select_best_image [itemFarAway, itemLandPrior] 31 0 0
    = Except.ok (SelResult.found itemLandPrior "landsat-9" 30) := by rfl

theorem isSentinelPlatform_examples :
    isSentinelPlatform "Sentinel-2A" = true ∧
    isSentinelPlatform "landsat-8" = false := by decide

end Algal
